import Mathlib

/-!
Shallow embedding of the packaging manifest
`airbyte-integrations/connectors/source-appstore-singer/setup.py`.

The module consists of a license docstring, one `from setuptools import
find_packages, setup` statement, and a single call to `setup(...)` with ten
keyword arguments. We embed the literal argument values, the abstract syntax
of the call and of the module body, a requirement-string parser (the shape
accepted by the packaging tool for the entries used here: a distribution
name, optionally pinned with `==version` or given a direct URL with ` @ url`),
a glob matcher for the `package_data` patterns, and an evaluator of the
module over an abstract build directory.
-/

namespace AppstoreSetup

/-- The kinds of expression that appear as keyword-argument values in the
`setup(...)` call of the manifest: string literals, lists of string literals,
dict literals from strings to string lists, and the call `find_packages()`. -/
inductive SetupExpr where
  | strLit (s : String)
  | listLit (xs : List String)
  | dictLit (entries : List (String × List String))
  | findPackagesCall
  deriving DecidableEq

/-- The `install_requires` list of the manifest, verbatim. -/
def install_requires : List String :=
  [ "airbyte-protocol",
    "appstoreconnect==0.9.0",
    "base-singer",
    "base-python",
    "pyjwt==1.6.4",
    "tap-appstore @ https://github.com/airbytehq/tap-appstore/tarball/master" ]

/-- The `package_data` dict of the manifest, verbatim. -/
def package_data : List (String × List String) := [("", ["*.json"])]

/-- The `setup_requires` list of the manifest, verbatim. -/
def setup_requires : List String := ["pytest-runner"]

/-- The `tests_require` list of the manifest, verbatim. -/
def tests_require : List String := ["pytest"]

/-- The `extras_require` dict of the manifest, verbatim. -/
def extras_require : List (String × List String) :=
  [("tests", ["airbyte-python-test", "pytest"])]

/-- The keyword arguments of the `setup(...)` call, in source order. -/
def setupKwargs : List (String × SetupExpr) :=
  [ ("name", .strLit "source_appstore_singer"),
    ("description",
      .strLit "Source implementation for Appstore, built on the Singer tap implementation."),
    ("author", .strLit "Airbyte"),
    ("author_email", .strLit "contact@airbyte.io"),
    ("packages", .findPackagesCall),
    ("install_requires", .listLit install_requires),
    ("package_data", .dictLit package_data),
    ("setup_requires", .listLit setup_requires),
    ("tests_require", .listLit tests_require),
    ("extras_require", .dictLit extras_require) ]

/-! ### Requirement specifiers

The entries of `install_requires`, `setup_requires`, `tests_require` and
`extras_require` use three of the forms accepted by the packaging tool:
a plain distribution name, `name==version`, and `name @ direct-url`.
We parse them over character lists. -/

/-- A parsed requirement: the distribution name, an exact version when the
entry pins one with `==`, and a direct URL when the entry uses ` @ `. -/
structure Requirement where
  distName : List Char
  exactVersion : Option (List Char)
  directUrl : Option (List Char)
  deriving DecidableEq

/-- Whether the first list is an initial segment of the second. -/
def leadsChars : List Char → List Char → Bool
  | [], _ => true
  | _ :: _, [] => false
  | a :: as, b :: bs => a == b && leadsChars as bs

/-- Split a character list at the first occurrence of the separator,
returning the parts before and after it, or `none` when it never occurs. -/
def breakOn (sep : List Char) : List Char → Option (List Char × List Char)
  | [] => none
  | c :: cs =>
    if leadsChars sep (c :: cs) then
      some ([], (c :: cs).drop sep.length)
    else
      match breakOn sep cs with
      | some (pre, post) => some (c :: pre, post)
      | none => none

/-- Characters allowed in a distribution name (PEP 508 name alphabet). -/
def isDistNameChar (c : Char) : Bool :=
  c.isAlpha || c.isDigit || c == '-' || c == '_' || c == '.'

/-- A well-formed distribution name: nonempty, made of name characters,
beginning and ending with a letter or digit. -/
def isWellFormedDistName (cs : List Char) : Bool :=
  !cs.isEmpty && cs.all isDistNameChar &&
    (match cs.head? with
     | some c => c.isAlpha || c.isDigit
     | none => false) &&
    (match cs.getLast? with
     | some c => c.isAlpha || c.isDigit
     | none => false)

/-- Parse one requirement string into its distribution name and optional
pin or direct URL; `none` when the entry is not well formed. -/
def parseRequirement (s : String) : Option Requirement :=
  let cs := s.toList
  match breakOn (" @ ".toList) cs with
  | some (n, url) =>
    if isWellFormedDistName n && !url.isEmpty then
      some ⟨n, none, some url⟩
    else none
  | none =>
    match breakOn ("==".toList) cs with
    | some (n, v) =>
      if isWellFormedDistName n && !v.isEmpty then
        some ⟨n, some v, none⟩
      else none
    | none =>
      if isWellFormedDistName cs then some ⟨cs, none, none⟩ else none

/-- A valid Python package name, as used for the `name` field: nonempty,
starting with a letter or underscore, then letters, digits or underscores. -/
def isValidPyPackageName (s : String) : Bool :=
  match s.toList with
  | [] => false
  | c :: cs =>
    (c.isAlpha || c == '_') && cs.all (fun d => d.isAlpha || d.isDigit || d == '_')

/-- Every requirement string declared anywhere in the manifest:
`install_requires`, `setup_requires`, `tests_require`, and the value lists
of `extras_require`. -/
def allRequirementStrings : List String :=
  install_requires ++ setup_requires ++ tests_require ++
    (extras_require.map Prod.snd).flatten

/-- The exact-version pins declared across the manifest, as pairs of
distribution name and pinned version. -/
def declaredPins : List (List Char × List Char) :=
  allRequirementStrings.filterMap (fun s =>
    match parseRequirement s with
    | some r =>
      match r.exactVersion with
      | some v => some (r.distName, v)
      | none => none
    | none => none)

/-- No two declared pins give the same distribution different versions. -/
def noVersionConflicts : Bool :=
  declaredPins.all (fun p => declaredPins.all (fun q => !(p.1 == q.1) || p.2 == q.2))

/-- Whether a requirement string pins an exact version with `==`. -/
def isPinned (s : String) : Bool :=
  match parseRequirement s with
  | some r => r.exactVersion.isSome
  | none => false

/-- Whether a requirement string is a bare distribution name: no version
pin and no direct URL. -/
def isUnversioned (s : String) : Bool :=
  match parseRequirement s with
  | some r => r.exactVersion.isNone && r.directUrl.isNone
  | none => false

/-! ### Glob patterns

`package_data` values are glob patterns handed to the packaging tool; the one
pattern used here is `*.json`. We model the matcher over character lists:
`*` matches any (possibly empty) run of characters, any other pattern
character matches itself. -/

/-- Glob matching of a pattern against a file name, both as character
lists: a star consumes some (possibly empty) run of characters, so the rest
of the pattern must match some suffix of the rest of the name. -/
def globMatch : List Char → List Char → Bool
  | [], s => s.isEmpty
  | p :: ps, s =>
    if p = '*' then
      s.tails.any (fun t => globMatch ps t)
    else
      match s with
      | [] => false
      | c :: cs => p == c && globMatch ps cs

/-! ### The module body

The manifest module is a license docstring, one statement binding
`find_packages` and `setup` from `setuptools`, and a single expression
statement calling `setup(...)`. The statement type also has constructors for
function and class definitions and for loops, which do not occur in the
module, so that the absence of deferred or repeated evaluation is a real
statement about the body. -/

/-- Top-level Python statements, as far as the manifest needs them. -/
inductive TopStmt where
  | docstring (text : String)
  | importFrom (moduleName : String) (names : List String)
  | callStmt (fn : String) (kwargs : List (String × SetupExpr))
  | funcDef (name : String)
  | classDef (name : String)
  | whileLoop
  | forLoop
  deriving DecidableEq

/-- The module docstring of the manifest (the MIT license text). -/
def moduleDocstring : String :=
  "MIT License Copyright (c) 2020 Airbyte. Permission is hereby granted, " ++
  "free of charge, to any person obtaining a copy of this software and " ++
  "associated documentation files (the \"Software\"), to deal in the " ++
  "Software without restriction [...] THE SOFTWARE IS PROVIDED \"AS IS\", " ++
  "WITHOUT WARRANTY OF ANY KIND, EXPRESS OR IMPLIED [...]"

/-- The statements of the manifest module, in source order. -/
def moduleBody : List TopStmt :=
  [ .docstring moduleDocstring,
    .importFrom "setuptools" ["find_packages", "setup"],
    .callStmt "setup" setupKwargs ]

/-- Whether a statement is a call to `setup`. -/
def invokesSetup : TopStmt → Bool
  | .callStmt fn _ => fn == "setup"
  | _ => false

/-- Whether a statement performs a call (the only statement form in the
body that has an effect when the module is evaluated). -/
def isCallStmt : TopStmt → Bool
  | .callStmt _ _ => true
  | _ => false

/-- Whether a statement defines code evaluated later (deferred
evaluation). -/
def defersEvaluation : TopStmt → Bool
  | .funcDef _ => true
  | .classDef _ => true
  | _ => false

/-- Whether a statement can evaluate its body repeatedly. -/
def repeatsEvaluation : TopStmt → Bool
  | .whileLoop => true
  | .forLoop => true
  | _ => false

/-! ### Evaluating the module over a build directory -/

/-- An abstract build directory: the candidate package directories, each
with the plain file names it contains. -/
structure BuildDir where
  dirs : List (String × List String)
  deriving DecidableEq

/-- `find_packages()`: the directories of the build tree that are Python
packages, i.e. contain an `__init__.py` file. -/
def find_packages (d : BuildDir) : List String :=
  (d.dirs.filter (fun p => p.2.contains "__init__.py")).map Prod.fst

/-- Errors Python evaluation of the manifest could raise. -/
inductive PyError where
  | typeError (msg : String)
  | missingKwarg (key : String)
  deriving DecidableEq

/-- The metadata record the `setup(...)` call hands to the packaging
tool. -/
structure SetupMetadata where
  name : String
  description : String
  author : String
  author_email : String
  packages : List String
  install_requires : List String
  package_data : List (String × List String)
  setup_requires : List String
  tests_require : List String
  extras_require : List (String × List String)
  deriving DecidableEq

/-- Look up a keyword argument of the `setup(...)` call. -/
def lookupKwarg (key : String) : Except PyError SetupExpr :=
  match setupKwargs.lookup key with
  | some v => Except.ok v
  | none => Except.error (.missingKwarg key)

/-- Evaluate an argument expression expected to be a string. -/
def evalStr : SetupExpr → Except PyError String
  | .strLit s => Except.ok s
  | _ => Except.error (.typeError "expected a string literal")

/-- Evaluate an argument expression expected to be a list of strings. -/
def evalStrList : SetupExpr → Except PyError (List String)
  | .listLit xs => Except.ok xs
  | _ => Except.error (.typeError "expected a list of strings")

/-- Evaluate an argument expression expected to be a dict of string
lists. -/
def evalDict : SetupExpr → Except PyError (List (String × List String))
  | .dictLit es => Except.ok es
  | _ => Except.error (.typeError "expected a dict")

/-- Evaluate the `packages` argument: `find_packages()` scans the build
directory; an explicit list would be taken as is. -/
def evalPackagesExpr (d : BuildDir) : SetupExpr → Except PyError (List String)
  | .findPackagesCall => Except.ok (find_packages d)
  | .listLit xs => Except.ok xs
  | _ => Except.error (.typeError "expected packages")

/-- Evaluate the manifest module over a build directory: construct the
metadata record from the keyword arguments of the one `setup(...)` call. -/
def evalModule (d : BuildDir) : Except PyError SetupMetadata := do
  let n ← lookupKwarg "name" >>= evalStr
  let desc ← lookupKwarg "description" >>= evalStr
  let auth ← lookupKwarg "author" >>= evalStr
  let authEmail ← lookupKwarg "author_email" >>= evalStr
  let pkgs ← lookupKwarg "packages" >>= evalPackagesExpr d
  let ir ← lookupKwarg "install_requires" >>= evalStrList
  let pd ← lookupKwarg "package_data" >>= evalDict
  let sr ← lookupKwarg "setup_requires" >>= evalStrList
  let tr ← lookupKwarg "tests_require" >>= evalStrList
  let er ← lookupKwarg "extras_require" >>= evalDict
  pure ⟨n, desc, auth, authEmail, pkgs, ir, pd, sr, tr, er⟩

/-- The metadata record the manifest produces over a given build
directory: every field a constant of the manifest text except `packages`,
which is the `find_packages()` scan of the build directory. -/
def manifestMetadata (d : BuildDir) : SetupMetadata :=
  ⟨"source_appstore_singer",
   "Source implementation for Appstore, built on the Singer tap implementation.",
   "Airbyte",
   "contact@airbyte.io",
   find_packages d,
   install_requires,
   package_data,
   setup_requires,
   tests_require,
   extras_require⟩

/-- A sample build directory with one package directory. -/
def sampleDir : BuildDir :=
  ⟨[("source_appstore_singer", ["__init__.py", "source.py", "spec.json"])]⟩

/-- The empty build directory. -/
def emptyDir : BuildDir := ⟨[]⟩

/-! ### Spec-side classifications

The following definitions follow the wording of the specification, to be
compared against the source-derived definitions above: the five dependency
kinds the spec names for `install_requires`, and the four declaration kinds
it says the `setup(...)` call solely consists of. -/

/-- The five kinds of runtime dependency the spec enumerates. -/
inductive DepCategory where
  | protocolLayer
  | apiClient
  | signingLib
  | baseFramework
  | externalTap
  deriving DecidableEq

/-- Classification of a requirement string into the five kinds the spec
enumerates: the airbyte-protocol compatibility layer, the fixed-version
appstoreconnect API client, the pyjwt signing-token library, the base
connector framework packages, and the tap-appstore implementation fetched
by direct URL. `none` for anything outside those kinds. -/
def specDepCategory (s : String) : Option DepCategory :=
  match parseRequirement s with
  | none => none
  | some r =>
    if r.distName == "airbyte-protocol".toList then some .protocolLayer
    else if r.distName == "appstoreconnect".toList &&
        r.exactVersion == some "0.9.0".toList then some .apiClient
    else if r.distName == "pyjwt".toList then some .signingLib
    else if r.distName == "base-singer".toList ||
        r.distName == "base-python".toList then some .baseFramework
    else if r.distName == "tap-appstore".toList && r.directUrl.isSome then
      some .externalTap
    else none

/-- The four declaration kinds the spec says the `setup(...)` call solely
consists of. -/
inductive DeclKind where
  | packageName
  | authorInfo
  | dependencyList
  | testConfig
  deriving DecidableEq

/-- Classification of a `setup(...)` keyword into the spec's four
declaration kinds: package name, author, dependency list, test-extra
configuration. `none` for any keyword outside those kinds. -/
def specDeclKind (key : String) : Option DeclKind :=
  if key == "name" then some .packageName
  else if key == "author" || key == "author_email" then some .authorInfo
  else if key == "install_requires" then some .dependencyList
  else if key == "setup_requires" || key == "tests_require" ||
      key == "extras_require" then some .testConfig
  else none

/-- The declaration kinds actually present in the `setup(...)` call: the
spec's four, plus the description text, the package discovery field and the
package-data field the call also declares. -/
inductive FullDeclKind where
  | packageName
  | descriptionText
  | authorInfo
  | packageDiscovery
  | dependencyList
  | packageDataDecl
  | testConfig
  deriving DecidableEq

/-- Classification of a `setup(...)` keyword into the declaration kinds
actually present in the call. -/
def fullDeclKind (key : String) : Option FullDeclKind :=
  if key == "name" then some .packageName
  else if key == "description" then some .descriptionText
  else if key == "author" || key == "author_email" then some .authorInfo
  else if key == "packages" then some .packageDiscovery
  else if key == "install_requires" then some .dependencyList
  else if key == "package_data" then some .packageDataDecl
  else if key == "setup_requires" || key == "tests_require" ||
      key == "extras_require" then some .testConfig
  else none

/-- Whether a keyword-argument value is a literal constant of the manifest
text (everything except the `find_packages()` call). -/
def isLiteralExpr : SetupExpr → Bool
  | .findPackagesCall => false
  | _ => true

/-! ### Helper lemmas -/

/-- A star-free pattern matches itself literally. -/
lemma globMatch_self (l : List Char) (h : '*' ∉ l) : globMatch l l = true := by
  induction l with
  | nil => simp [globMatch]
  | cons c cs ih =>
    have hc : c ≠ '*' := fun hcc => h (hcc ▸ List.mem_cons_self c cs)
    have hcs : '*' ∉ cs := fun hm => h (List.mem_cons_of_mem c hm)
    simp [globMatch, hc, ih hcs]

/-- Unfolding of the matcher on a leading star. -/
lemma globMatch_star (ps s : List Char) :
    globMatch ('*' :: ps) s = s.tails.any (fun t => globMatch ps t) := by
  simp [globMatch]

/-- A pattern of a star followed by a star-free suffix matches every name
ending in that suffix. -/
lemma globMatch_star_suffix (sfx stem : List Char) (h : '*' ∉ sfx) :
    globMatch ('*' :: sfx) (stem ++ sfx) = true := by
  rw [globMatch_star, List.any_eq_true]
  refine ⟨sfx, ?_, globMatch_self sfx h⟩
  rw [List.mem_tails]
  exact ⟨stem, rfl⟩

/-- Evaluating the module never reaches an error branch: it returns the
metadata record whose only directory-dependent field is `packages`. -/
lemma evalModule_eq (d : BuildDir) :
    evalModule d = Except.ok (manifestMetadata d) := rfl

/-! ### The claims -/

/-- C1: the declared `install_requires` list consists exactly of the
airbyte-protocol compatibility layer, the fixed-version appstoreconnect API
client, the pyjwt signing-token library, the base connector framework
packages, and the tap-appstore implementation fetched by a GitHub tarball
URL — every entry falls under one of these kinds, each kind is present, and
there is no other runtime dependency. -/
theorem c1_install_requires_exactly_the_declared_kinds :
    install_requires =
      ["airbyte-protocol", "appstoreconnect==0.9.0", "base-singer", "base-python",
       "pyjwt==1.6.4",
       "tap-appstore @ https://github.com/airbytehq/tap-appstore/tarball/master"] ∧
    install_requires.all (fun s => (specDepCategory s).isSome) = true ∧
    install_requires.filterMap specDepCategory =
      [DepCategory.protocolLayer, DepCategory.apiClient, DepCategory.baseFramework,
       DepCategory.baseFramework, DepCategory.signingLib, DepCategory.externalTap] := by
  decide

/-- C2, counterexample: the `setup(...)` call does not solely declare
package name, author, dependency list and test configuration — the
`description` keyword argument is passed and falls under none of those four
declaration kinds. -/
theorem c2_counterexample_description_kwarg :
    ("description", SetupExpr.strLit
        "Source implementation for Appstore, built on the Singer tap implementation.")
      ∈ setupKwargs ∧
    specDeclKind "description" = none := by
  decide

/-- C2, amended: every keyword argument of the `setup(...)` call is one of:
package name, description text, author information, package discovery,
dependency list, package data, or test configuration — and the keywords
classify, in source order, exactly as listed. -/
theorem c2_amended_all_kwargs_classified :
    setupKwargs.all (fun kv => (fullDeclKind kv.1).isSome) = true ∧
    setupKwargs.filterMap (fun kv => fullDeclKind kv.1) =
      [FullDeclKind.packageName, FullDeclKind.descriptionText, FullDeclKind.authorInfo,
       FullDeclKind.authorInfo, FullDeclKind.packageDiscovery, FullDeclKind.dependencyList,
       FullDeclKind.packageDataDecl, FullDeclKind.testConfig, FullDeclKind.testConfig,
       FullDeclKind.testConfig] := by
  decide

/-- C3: `package_data` maps the catch-all package key to the pattern list
containing exactly the glob `*.json`, and that glob matches every file name
ending in `.json`, so every JSON file in any contained package is declared
installable. -/
theorem c3_package_data_all_json_installable :
    package_data = [("", ["*.json"])] ∧
    ∀ stem : List Char,
      globMatch ("*.json".toList) (stem ++ ".json".toList) = true := by
  refine ⟨rfl, fun stem => ?_⟩
  have h : ("*.json".toList) = '*' :: (".json".toList) := rfl
  rw [h]
  exact globMatch_star_suffix (".json".toList) stem (by decide)

/-- C4, counterexample: not every value passed to `setup(...)` is a literal
constant of the manifest text — the `packages` keyword argument is the call
`find_packages()`, computed from the build environment. -/
theorem c4_counterexample_packages_not_literal :
    ("packages", SetupExpr.findPackagesCall) ∈ setupKwargs ∧
    isLiteralExpr SetupExpr.findPackagesCall = false := by
  decide

/-- C4, amended: every value passed to `setup(...)` except the `packages`
field is a literal constant fixed by the manifest text; `packages` is the
sole non-literal value and is computed by `find_packages()` over the build
directory. -/
theorem c4_amended_all_but_packages_literal :
    setupKwargs.all (fun kv => kv.1 == "packages" || isLiteralExpr kv.2) = true ∧
    setupKwargs.filter (fun kv => !isLiteralExpr kv.2) =
      [("packages", SetupExpr.findPackagesCall)] := by
  decide

/-- C5: the straight-line module body invokes `setup` exactly once, that
call is the only call statement (the only effectful statement) in the body,
and the body contains no function or class definition and no loop, so no
deferred or repeated evaluation ever occurs. -/
theorem c5_single_synchronous_setup_call :
    moduleBody.countP invokesSetup = 1 ∧
    moduleBody.filter isCallStmt = [TopStmt.callStmt "setup" setupKwargs] ∧
    moduleBody.all (fun s => !(defersEvaluation s || repeatsEvaluation s)) = true := by
  decide

/-- C6: evaluating the manifest — constructing the metadata record —
succeeds for every build-directory input: no error branch of the evaluator
is reachable. -/
theorem c6_eval_total_no_error :
    ∀ d : BuildDir, ∃ m : SetupMetadata, evalModule d = Except.ok m :=
  fun d => ⟨manifestMetadata d, evalModule_eq d⟩

/-- C7: the manifest is internally consistent metadata — the package name
is a well-formed package name, every entry of `install_requires`,
`setup_requires`, `tests_require` and `extras_require` parses as a
well-formed requirement specifier, and no two entries pin the same
distribution to different versions. -/
theorem c7_manifest_wellformed_consistent :
    setupKwargs.lookup "name" = some (SetupExpr.strLit "source_appstore_singer") ∧
    isValidPyPackageName "source_appstore_singer" = true ∧
    allRequirementStrings.all (fun s => (parseRequirement s).isSome) = true ∧
    noVersionConflicts = true := by
  decide

/-- C8: `install_requires` contains the exact pin `pyjwt==1.6.4`; exactly
two of its six entries are exact-version pins (appstoreconnect and pyjwt),
while airbyte-protocol, base-singer and base-python are unversioned bare
names. -/
theorem c8_pyjwt_pinned_two_exact_pins :
    "pyjwt==1.6.4" ∈ install_requires ∧
    install_requires.length = 6 ∧
    install_requires.filter isPinned = ["appstoreconnect==0.9.0", "pyjwt==1.6.4"] ∧
    install_requires.filter isUnversioned =
      ["airbyte-protocol", "base-singer", "base-python"] := by
  decide

/-- C9: test configuration is declared in three distinct fields of the
`setup(...)` call — `setup_requires` is exactly `["pytest-runner"]`,
`tests_require` is exactly `["pytest"]`, and the `tests` extra is exactly
`["airbyte-python-test", "pytest"]` — with `pytest` duplicated between
`tests_require` and the `tests` extra. -/
theorem c9_test_config_three_fields :
    setup_requires = ["pytest-runner"] ∧
    tests_require = ["pytest"] ∧
    extras_require = [("tests", ["airbyte-python-test", "pytest"])] ∧
    ("setup_requires", SetupExpr.listLit setup_requires) ∈ setupKwargs ∧
    ("tests_require", SetupExpr.listLit tests_require) ∈ setupKwargs ∧
    ("extras_require", SetupExpr.dictLit extras_require) ∈ setupKwargs ∧
    "pytest" ∈ tests_require ∧
    "pytest" ∈ (extras_require.map Prod.snd).flatten := by
  decide

/-- C10: evaluation of the manifest is deterministic up to the filesystem —
any two successful evaluations agree on every field of the metadata record
except `packages`, and in each the `packages` field equals the
`find_packages()` scan of that evaluation's build directory. -/
theorem c10_deterministic_up_to_find_packages
    (d₁ d₂ : BuildDir) (m₁ m₂ : SetupMetadata)
    (h₁ : evalModule d₁ = Except.ok m₁) (h₂ : evalModule d₂ = Except.ok m₂) :
    m₁.name = m₂.name ∧ m₁.description = m₂.description ∧
    m₁.author = m₂.author ∧ m₁.author_email = m₂.author_email ∧
    m₁.install_requires = m₂.install_requires ∧
    m₁.package_data = m₂.package_data ∧
    m₁.setup_requires = m₂.setup_requires ∧
    m₁.tests_require = m₂.tests_require ∧
    m₁.extras_require = m₂.extras_require ∧
    m₁.packages = find_packages d₁ ∧ m₂.packages = find_packages d₂ := by
  rw [evalModule_eq] at h₁ h₂
  injection h₁ with e₁
  injection h₂ with e₂
  subst e₁
  subst e₂
  exact ⟨rfl, rfl, rfl, rfl, rfl, rfl, rfl, rfl, rfl, rfl, rfl⟩

/-- C10, witness: the determinism theorem applied to the sample build
directory and the empty build directory. -/
theorem c10_witness :
    (manifestMetadata sampleDir).name = (manifestMetadata emptyDir).name ∧
    (manifestMetadata sampleDir).description = (manifestMetadata emptyDir).description ∧
    (manifestMetadata sampleDir).author = (manifestMetadata emptyDir).author ∧
    (manifestMetadata sampleDir).author_email = (manifestMetadata emptyDir).author_email ∧
    (manifestMetadata sampleDir).install_requires =
      (manifestMetadata emptyDir).install_requires ∧
    (manifestMetadata sampleDir).package_data = (manifestMetadata emptyDir).package_data ∧
    (manifestMetadata sampleDir).setup_requires =
      (manifestMetadata emptyDir).setup_requires ∧
    (manifestMetadata sampleDir).tests_require =
      (manifestMetadata emptyDir).tests_require ∧
    (manifestMetadata sampleDir).extras_require =
      (manifestMetadata emptyDir).extras_require ∧
    (manifestMetadata sampleDir).packages = find_packages sampleDir ∧
    (manifestMetadata emptyDir).packages = find_packages emptyDir :=
  c10_deterministic_up_to_find_packages sampleDir emptyDir
    (manifestMetadata sampleDir) (manifestMetadata emptyDir) rfl rfl

end AppstoreSetup
